import Mathlib

/-!
Verification of the weather CLI in `src/main.py` against its specification.

The program is embedded shallowly: temperatures (Python floats coming from the
provider's JSON) are modelled as rationals, strings as Lean strings, the HTTP
provider and the SMTP transport as oracles passed in as parameters, and the
orchestrator `main` as a function producing an outcome record (exit code,
printed lines, whether a network call happened, notifier calls).
-/

namespace WeatherCLI

/-- The data the program reads out of the provider's JSON response:
`main.temp`, `weather[0].main`, `weather[0].description`, `name`. -/
structure WeatherSnapshot where
  temp : ℚ
  main_weather : String
  description : String
  name : String
deriving DecidableEq

/-- Rendering of a Python float by an f-string, modelled on rationals: a value
with a terminating decimal expansion prints as `<int part>.<fraction>` with
trailing zeros stripped but at least one fractional digit (`15.0`, `35.5`),
matching `repr` of such floats; other rationals fall back to `toString`. -/
def pyFloatRepr (q : ℚ) : String :=
  match (List.range 18).find? (fun k => 10 ^ k % q.den == 0) with
  | some k =>
      let m := q.num.natAbs * (10 ^ k / q.den)
      let ip := m / 10 ^ k
      let fp := m % 10 ^ k
      let fs := (toString (fp + 10 ^ k)).drop 1
      let fs := String.mk ((fs.data.reverse.dropWhile (· == '0')).reverse)
      let fs := if fs = "" then "0" else fs
      (if q.num < 0 then "-" else "") ++ toString ip ++ "." ++ fs
  | none => toString q

/-- Helper for `pyTitle`: the boolean tracks whether the previous character
was alphabetic (continuing a word). -/
def titleAux : List Char → Bool → List Char
  | [], _ => []
  | c :: cs, prevAlpha =>
    if c.isAlpha then
      (if prevAlpha then c.toLower else c.toUpper) :: titleAux cs true
    else
      c :: titleAux cs false

/-- Python `str.title()`: the first character of each alphabetic run is
uppercased, the rest lowercased. -/
def pyTitle (s : String) : String := String.mk (titleAux s.data false)

/-- `check_condition(weather_data, condition)` from `src/main.py` (lines
104-116): returns `(triggered, alert message or empty string)`. -/
def check_condition (w : WeatherSnapshot) (condition : String) : Bool × String :=
  if condition = "hot" ∧ w.temp > 30 then
    (true, "Hot weather alert in " ++ w.name ++ "! Temperature: "
      ++ pyFloatRepr w.temp ++ "°C")
  else if condition = "cold" ∧ w.temp < 0 then
    (true, "Cold weather alert in " ++ w.name ++ "! Temperature: "
      ++ pyFloatRepr w.temp ++ "°C")
  else if condition = "rain" ∧ w.main_weather = "Rain" then
    (true, "Rain alert in " ++ w.name ++ "! Weather: " ++ w.description)
  else
    (false, "")

/-- A nonempty string appended on the left keeps a string nonempty. -/
theorem append_ne_empty_left (s t : String) (h : s ≠ "") : s ++ t ≠ "" := by
  intro he
  apply h
  have hl := congrArg String.length he
  rw [String.length_append] at hl
  have h0 : String.length "" = 0 := rfl
  have hs : s.length = 0 := by omega
  cases s with
  | mk data =>
    cases data with
    | nil => rfl
    | cons c cs => simp [String.length] at hs

/-- C1: `check_condition` triggers on `"hot"` exactly when the temperature is
strictly above 30 (so 30 itself does not trigger), and then the message
contains the snapshot's city name and the rendered exact temperature. -/
theorem hot_condition_spec (w : WeatherSnapshot) :
    ((check_condition w "hot").1 = true ↔ 30 < w.temp) ∧
    (30 < w.temp → ∃ a b c, (check_condition w "hot").2 =
      a ++ w.name ++ b ++ pyFloatRepr w.temp ++ c) := by
  by_cases h : (30 : ℚ) < w.temp
  · refine ⟨by simp [check_condition, h], fun _ => ?_⟩
    exact ⟨"Hot weather alert in ", "! Temperature: ", "°C",
      by simp [check_condition, h, String.append_assoc]⟩
  · exact ⟨by simp [check_condition, h], fun hc => absurd hc h⟩

/-- C1 witness: at temperature 31 the hot condition triggers and the message
contains the city and the temperature. -/
theorem hot_condition_spec_witness :
    ((check_condition ⟨31, "Clear", "clear sky", "Phoenix"⟩ "hot").1 = true
      ↔ 30 < (31 : ℚ)) ∧
    (30 < (31 : ℚ) → ∃ a b c,
      (check_condition ⟨31, "Clear", "clear sky", "Phoenix"⟩ "hot").2 =
        a ++ "Phoenix" ++ b ++ pyFloatRepr 31 ++ c) :=
  hot_condition_spec ⟨31, "Clear", "clear sky", "Phoenix"⟩

/-- C2: `check_condition` triggers on `"cold"` exactly when the temperature is
strictly below 0 (so 0 itself does not trigger), and then the message contains
the snapshot's city name and the rendered exact temperature. -/
theorem cold_condition_spec (w : WeatherSnapshot) :
    ((check_condition w "cold").1 = true ↔ w.temp < 0) ∧
    (w.temp < 0 → ∃ a b c, (check_condition w "cold").2 =
      a ++ w.name ++ b ++ pyFloatRepr w.temp ++ c) := by
  by_cases h : w.temp < 0
  · refine ⟨by simp [check_condition, h], fun _ => ?_⟩
    exact ⟨"Cold weather alert in ", "! Temperature: ", "°C",
      by simp [check_condition, h, String.append_assoc]⟩
  · exact ⟨by simp [check_condition, h], fun hc => absurd hc h⟩

/-- C2 witness: at temperature -5 the cold condition triggers and the message
contains the city and the temperature. -/
theorem cold_condition_spec_witness :
    ((check_condition ⟨-5, "Snow", "light snow", "Oslo"⟩ "cold").1 = true
      ↔ (-5 : ℚ) < 0) ∧
    ((-5 : ℚ) < 0 → ∃ a b c,
      (check_condition ⟨-5, "Snow", "light snow", "Oslo"⟩ "cold").2 =
        a ++ "Oslo" ++ b ++ pyFloatRepr (-5) ++ c) :=
  cold_condition_spec ⟨-5, "Snow", "light snow", "Oslo"⟩

/-- C3: `check_condition` triggers on `"rain"` exactly when the coarse category
equals `"Rain"` (case-sensitively; the description never influences
triggering), and then the message contains the snapshot's city name and the
fine-grained description. -/
theorem rain_condition_spec (w : WeatherSnapshot) :
    ((check_condition w "rain").1 = true ↔ w.main_weather = "Rain") ∧
    (∀ d : String, (check_condition { w with description := d } "rain").1 =
      (check_condition w "rain").1) ∧
    (w.main_weather = "Rain" → ∃ a b, (check_condition w "rain").2 =
      a ++ w.name ++ b ++ w.description) := by
  by_cases h : w.main_weather = "Rain"
  · refine ⟨by simp [check_condition, h], fun d => by simp [check_condition, h],
      fun _ => ?_⟩
    exact ⟨"Rain alert in ", "! Weather: ",
      by simp [check_condition, h, String.append_assoc]⟩
  · exact ⟨by simp [check_condition, h], fun d => by simp [check_condition, h],
      fun hc => absurd hc h⟩

/-- C3 witness: category `"Rain"` triggers with the description in the
message; category `"Clouds"` never appears because the iff is instantiated at
a `"Rain"` snapshot. -/
theorem rain_condition_spec_witness :
    ((check_condition ⟨10, "Rain", "light rain", "London"⟩ "rain").1 = true
      ↔ ("Rain" : String) = "Rain") ∧
    (∀ d : String,
      (check_condition ⟨10, "Rain", d, "London"⟩ "rain").1 =
        (check_condition ⟨10, "Rain", "light rain", "London"⟩ "rain").1) ∧
    (("Rain" : String) = "Rain" → ∃ a b,
      (check_condition ⟨10, "Rain", "light rain", "London"⟩ "rain").2 =
        a ++ "London" ++ b ++ "light rain") :=
  rain_condition_spec ⟨10, "Rain", "light rain", "London"⟩

/-- C9: the message is nonempty exactly when the condition triggers (so a
non-triggering result carries the empty string), and any condition outside
hot/cold/rain yields `(false, "")` without an error. -/
theorem evaluate_message_invariant (w : WeatherSnapshot) (c : String) :
    ((check_condition w c).2 ≠ "" ↔ (check_condition w c).1 = true) ∧
    (c ∉ (["hot", "cold", "rain"] : List String) →
      check_condition w c = (false, "")) := by
  constructor
  · unfold check_condition
    split
    · refine ⟨fun _ => rfl, fun _ => ?_⟩
      apply append_ne_empty_left
      apply append_ne_empty_left
      apply append_ne_empty_left
      apply append_ne_empty_left
      decide
    · split
      · refine ⟨fun _ => rfl, fun _ => ?_⟩
        apply append_ne_empty_left
        apply append_ne_empty_left
        apply append_ne_empty_left
        apply append_ne_empty_left
        decide
      · split
        · refine ⟨fun _ => rfl, fun _ => ?_⟩
          apply append_ne_empty_left
          apply append_ne_empty_left
          apply append_ne_empty_left
          decide
        · simp
  · intro hc
    unfold check_condition
    simp only [List.mem_cons, List.mem_singleton] at hc
    push_neg at hc
    obtain ⟨h1, h2, h3⟩ := hc
    simp [h1, h2, h3]

/-- C9 witness: an unknown condition string yields `(false, "")`, and the
nonempty-message iff holds there. -/
theorem evaluate_message_invariant_witness :
    (((check_condition ⟨50, "Clear", "d", "X"⟩ "windy").2 ≠ "" ↔
      (check_condition ⟨50, "Clear", "d", "X"⟩ "windy").1 = true) ∧
     ("windy" ∉ (["hot", "cold", "rain"] : List String) →
      check_condition ⟨50, "Clear", "d", "X"⟩ "windy" = (false, ""))) ∧
    check_condition ⟨50, "Clear", "d", "X"⟩ "windy" = (false, "") := by
  refine ⟨evaluate_message_invariant ⟨50, "Clear", "d", "X"⟩ "windy", ?_⟩
  exact (evaluate_message_invariant ⟨50, "Clear", "d", "X"⟩ "windy").2 (by decide)

/-- Python `str.strip()`: whitespace removed from both ends. -/
def pyStrip (s : String) : String :=
  String.mk (((s.data.dropWhile Char.isWhitespace).reverse.dropWhile
    Char.isWhitespace).reverse)

/-- What the provider does when `requests.get` is issued for a city: either a
JSON body (status `cod`, optional `message`, the weather fields) or a
transport-level failure (timeout, HTTP error status, connection error). -/
structure ApiResponse where
  cod : Nat
  message : Option String
  data : WeatherSnapshot

inductive HttpResult where
  | ok (resp : ApiResponse)
  | transportError (e : String)

/-- Outcome of `get_weather`: the returned data or the raised `ValueError`'s
message, plus whether a network request was issued. -/
structure FetchResult where
  result : Except String WeatherSnapshot
  networkCalled : Bool

/-- `get_weather(city, api_key)` from `src/main.py` (lines 62-91): strips the
city, rejects an empty result before any request, otherwise issues one request
and maps transport failures and non-200 `cod` bodies to errors. -/
def get_weather (city : String) (http : String → HttpResult) : FetchResult :=
  let city := pyStrip city
  if city = "" then
    { result := .error "City name cannot be empty.", networkCalled := false }
  else
    match http city with
    | .ok resp =>
        if resp.cod ≠ 200 then
          { result := .error ("City not found or API error: "
              ++ resp.message.getD "Unknown error"), networkCalled := true }
        else
          { result := .ok resp.data, networkCalled := true }
    | .transportError e =>
        { result := .error ("Failed to fetch weather for " ++ city ++ ": " ++ e),
          networkCalled := true }

/-- Stripping an all-whitespace string yields the empty string. -/
theorem pyStrip_eq_empty (s : String)
    (h : ∀ c ∈ s.data, c.isWhitespace) : pyStrip s = "" := by
  unfold pyStrip
  have h1 : s.data.dropWhile Char.isWhitespace = [] :=
    List.dropWhile_eq_nil_iff.mpr h
  rw [h1]
  rfl

/-- C6: an empty or whitespace-only city makes `get_weather` fail with the
validation error before any network call. -/
theorem fetch_rejects_blank_city (city : String) (http : String → HttpResult)
    (h : ∀ c ∈ city.data, c.isWhitespace) :
    (get_weather city http).result = .error "City name cannot be empty." ∧
    (get_weather city http).networkCalled = false := by
  unfold get_weather
  rw [pyStrip_eq_empty city h]
  exact ⟨rfl, rfl⟩

/-- C6 witness: the city `"  "` (whitespace only) is rejected without a
network call. -/
theorem fetch_rejects_blank_city_witness :
    (get_weather "  " (fun _ =>
      .ok ⟨200, none, ⟨20, "Clear", "clear sky", "X"⟩⟩)).result =
        .error "City name cannot be empty." ∧
    (get_weather "  " (fun _ =>
      .ok ⟨200, none, ⟨20, "Clear", "clear sky", "X"⟩⟩)).networkCalled = false :=
  fetch_rejects_blank_city "  " _ (by decide)

/-- The five SMTP interactions inside `send_email`, in source order:
`SMTP(host, port)` (connect), `starttls`, `login`, `sendmail`, `quit`. -/
inductive SmtpStep where
  | connect
  | starttls
  | login
  | sendmail
  | quit
deriving DecidableEq

/-- The order the steps appear in `send_email`. -/
def smtpOrder : List SmtpStep :=
  [.connect, .starttls, .login, .sendmail, .quit]

/-- `send_email` from `src/main.py` (lines 118-146), abstracted over which SMTP
step raises `SMTPException`: returns the steps attempted (in source order,
stopping at the first raising step, whose raise aborts the `try` block) and
whether the call succeeded. There is no `finally`: nothing runs after a raise. -/
def send_email (fails : SmtpStep → Bool) : List SmtpStep × Bool :=
  if fails .connect then ([.connect], false)
  else if fails .starttls then ([.connect, .starttls], false)
  else if fails .login then ([.connect, .starttls, .login], false)
  else if fails .sendmail then ([.connect, .starttls, .login, .sendmail], false)
  else if fails .quit then (smtpOrder, false)
  else (smtpOrder, true)

/-- C5 counterexample: when `login` raises, the session is never closed —
`quit` is not among the executed steps, refuting "the session is always
closed, whether the call succeeds or fails at any step". -/
theorem send_email_leaks_session :
    (send_email (fun s => s = SmtpStep.login)).2 = false ∧
    SmtpStep.quit ∉ (send_email (fun s => s = SmtpStep.login)).1 := by
  decide

/-- C5 (amended): the executed SMTP steps always form a prefix of the order
connect, starttls, login, sendmail, quit; but the teardown `quit` runs exactly
when connect, starttls, login and sendmail all succeed — a failure at any of
those steps skips the teardown, leaving the session open. -/
theorem send_email_step_order (fails : SmtpStep → Bool) :
    (∃ n, (send_email fails).1 = smtpOrder.take n) ∧
    (SmtpStep.quit ∈ (send_email fails).1 ↔
      fails .connect = false ∧ fails .starttls = false ∧
      fails .login = false ∧ fails .sendmail = false) := by
  unfold send_email
  cases hc : fails .connect <;> cases hs : fails .starttls <;>
    cases hl : fails .login <;> cases hm : fails .sendmail <;>
    cases hq : fails .quit <;>
    simp only [Bool.false_eq_true, if_true, if_false] <;>
    refine ⟨?_, by simp [smtpOrder]⟩ <;>
    first
      | exact ⟨1, rfl⟩ | exact ⟨2, rfl⟩ | exact ⟨3, rfl⟩
      | exact ⟨4, rfl⟩ | exact ⟨5, rfl⟩

/-- The three environment variables read by `main` (each may be unset). -/
structure Env where
  api_key : Option String
  email : Option String
  email_password : Option String

/-- Python truthiness of `os.getenv`'s result: `None` and `""` are falsy. -/
def truthy : Option String → Bool
  | none => false
  | some s => !s.isEmpty

/-- `all([api_key, from_email, email_password])` in `main`. -/
def envOk (env : Env) : Bool :=
  truthy env.api_key && truthy env.email && truthy env.email_password

/-- The arguments of one call to `send_email` (a notifier invocation). -/
structure EmailCall where
  to_email : String
  subject : String
  body : String
  from_email : String

/-- Observable outcome of one process invocation: exit status, lines printed
to stdout and stderr, whether a weather network request was issued, and the
notifier invocations (recorded whether or not the SMTP session succeeds). -/
structure MainOutcome where
  exitCode : Nat
  stdout : List String
  stderr : List String
  networkCalled : Bool
  notifierCalls : List EmailCall

/-- A parsed command line (argparse guarantees one of the two subcommands). -/
inductive Command where
  | forecast (city : String)
  | alert (city : String) (condition : String) (email : String)

/-- `main()` from `src/main.py` (lines 148-220): env check, alert-email
validation, fetch, then the forecast print or the alert
evaluate/notify/confirm path; `ValueError`s are mapped to stderr plus exit 1.
The SMTP exception text interpolated into the failed-send message is not
modelled (no claim depends on it). -/
def runMain (cmd : Command) (env : Env) (http : String → HttpResult)
    (smtpFails : SmtpStep → Bool) (now : String) : MainOutcome :=
  if envOk env = false then
    ⟨1, [], [], false, []⟩
  else
    match cmd with
    | .forecast city =>
        let f := get_weather city http
        match f.result with
        | .error e => ⟨1, [], ["Error: " ++ e], f.networkCalled, []⟩
        | .ok w =>
            ⟨0, ["Weather in " ++ city ++ ": " ++ pyTitle w.description
                  ++ ", Temperature: " ++ pyFloatRepr w.temp ++ "°C"], [],
              f.networkCalled, []⟩
    | .alert city cond email =>
        if '@' ∈ email.data then
          let f := get_weather city http
          match f.result with
          | .error e => ⟨1, [], ["Error: " ++ e], f.networkCalled, []⟩
          | .ok w =>
              let r := check_condition w cond
              if r.1 then
                let subject := "Weather Alert: " ++ pyTitle cond ++ " in " ++ city
                let body := r.2 ++ "\n\nCurrent conditions: "
                  ++ pyTitle w.description ++ ", Temperature: "
                  ++ pyFloatRepr w.temp ++ "°C\nTime: " ++ now
                  ++ "\n\nStay prepared!"
                let call : EmailCall := ⟨email, subject, body, env.email.getD ""⟩
                if (send_email smtpFails).2 then
                  ⟨0, ["Alert sent to " ++ email ++ "!"], [],
                    f.networkCalled, [call]⟩
                else
                  ⟨1, [], ["Error: Failed to send email: SMTPException"],
                    f.networkCalled, [call]⟩
              else
                ⟨0, ["No alert needed - condition not met."], [],
                  f.networkCalled, []⟩
        else
          ⟨1, [], [], false, []⟩

/-- C7: on the alert path a recipient address without `@` is rejected with
exit status 1 before any network call (and the notifier is never invoked);
this holds whether or not the environment check passes. -/
theorem alert_rejects_bad_email (env : Env) (city cond email now : String)
    (http : String → HttpResult) (smtpFails : SmtpStep → Bool)
    (h : '@' ∉ email.data) :
    (runMain (.alert city cond email) env http smtpFails now).exitCode = 1 ∧
    (runMain (.alert city cond email) env http smtpFails now).networkCalled
      = false ∧
    (runMain (.alert city cond email) env http smtpFails now).notifierCalls
      = [] := by
  unfold runMain
  cases he : envOk env <;> simp [h]

/-- C7 witness: the recipient `"userexample.com"` is rejected with exit 1 and
no network call. -/
theorem alert_rejects_bad_email_witness :
    (runMain (.alert "London" "hot" "userexample.com")
      ⟨some "k", some "s@x.com", some "pw"⟩
      (fun _ => .ok ⟨200, none, ⟨35, "Clear", "sunny", "London"⟩⟩)
      (fun _ => false) "T").exitCode = 1 ∧
    (runMain (.alert "London" "hot" "userexample.com")
      ⟨some "k", some "s@x.com", some "pw"⟩
      (fun _ => .ok ⟨200, none, ⟨35, "Clear", "sunny", "London"⟩⟩)
      (fun _ => false) "T").networkCalled = false ∧
    (runMain (.alert "London" "hot" "userexample.com")
      ⟨some "k", some "s@x.com", some "pw"⟩
      (fun _ => .ok ⟨200, none, ⟨35, "Clear", "sunny", "London"⟩⟩)
      (fun _ => false) "T").notifierCalls = [] :=
  alert_rejects_bad_email _ _ _ _ _ _ _ (by decide)

/-- C4: on the alert path, when the fetch succeeds and the condition does not
trigger, the process prints the neutral no-alert line, exits 0, prints no
error, and never invokes the notifier. -/
theorem alert_no_trigger_success (env : Env) (city cond email now : String)
    (http : String → HttpResult) (smtpFails : SmtpStep → Bool)
    (w : WeatherSnapshot)
    (henv : envOk env = true) (hat : '@' ∈ email.data)
    (hw : (get_weather city http).result = Except.ok w)
    (hnt : (check_condition w cond).1 = false) :
    (runMain (.alert city cond email) env http smtpFails now).exitCode = 0 ∧
    (runMain (.alert city cond email) env http smtpFails now).stdout
      = ["No alert needed - condition not met."] ∧
    (runMain (.alert city cond email) env http smtpFails now).stderr = [] ∧
    (runMain (.alert city cond email) env http smtpFails now).notifierCalls
      = [] := by
  unfold runMain
  simp [henv, hat, hw, hnt]

/-- C4 witness: `alert Oslo cold user@example.com` at 5°C does not trigger;
the run prints the neutral line, exits 0 and sends nothing. -/
theorem alert_no_trigger_success_witness :
    (runMain (.alert "Oslo" "cold" "user@example.com")
      ⟨some "k", some "s@x.com", some "pw"⟩
      (fun _ => .ok ⟨200, none, ⟨5, "Clear", "clear sky", "Oslo"⟩⟩)
      (fun _ => false) "T").exitCode = 0 ∧
    (runMain (.alert "Oslo" "cold" "user@example.com")
      ⟨some "k", some "s@x.com", some "pw"⟩
      (fun _ => .ok ⟨200, none, ⟨5, "Clear", "clear sky", "Oslo"⟩⟩)
      (fun _ => false) "T").stdout = ["No alert needed - condition not met."] ∧
    (runMain (.alert "Oslo" "cold" "user@example.com")
      ⟨some "k", some "s@x.com", some "pw"⟩
      (fun _ => .ok ⟨200, none, ⟨5, "Clear", "clear sky", "Oslo"⟩⟩)
      (fun _ => false) "T").stderr = [] ∧
    (runMain (.alert "Oslo" "cold" "user@example.com")
      ⟨some "k", some "s@x.com", some "pw"⟩
      (fun _ => .ok ⟨200, none, ⟨5, "Clear", "clear sky", "Oslo"⟩⟩)
      (fun _ => false) "T").notifierCalls = [] :=
  alert_no_trigger_success _ _ _ _ _ _ _ ⟨5, "Clear", "clear sky", "Oslo"⟩
    (by decide) (by decide) rfl (by decide)

/-- C8: on the forecast path with a successful fetch, the process prints
exactly the one line `Weather in <city>: <title-cased description>,
Temperature: <temp>°C` and exits 0. -/
theorem forecast_prints_line (env : Env) (city now : String)
    (http : String → HttpResult) (smtpFails : SmtpStep → Bool)
    (w : WeatherSnapshot)
    (henv : envOk env = true)
    (hw : (get_weather city http).result = Except.ok w) :
    (runMain (.forecast city) env http smtpFails now).stdout
      = ["Weather in " ++ city ++ ": " ++ pyTitle w.description
          ++ ", Temperature: " ++ pyFloatRepr w.temp ++ "°C"] ∧
    (runMain (.forecast city) env http smtpFails now).exitCode = 0 ∧
    (runMain (.forecast city) env http smtpFails now).stderr = [] := by
  unfold runMain
  simp [henv, hw]

/-- C8 witness: `forecast London` with a 15.0° "clear sky" response prints
`Weather in London: Clear Sky, Temperature: 15.0°C` and exits 0. -/
theorem forecast_prints_line_witness :
    (runMain (.forecast "London") ⟨some "k", some "s@x.com", some "pw"⟩
      (fun _ => .ok ⟨200, none, ⟨15, "Clear", "clear sky", "London"⟩⟩)
      (fun _ => false) "T").stdout
      = ["Weather in London: Clear Sky, Temperature: 15.0°C"] ∧
    (runMain (.forecast "London") ⟨some "k", some "s@x.com", some "pw"⟩
      (fun _ => .ok ⟨200, none, ⟨15, "Clear", "clear sky", "London"⟩⟩)
      (fun _ => false) "T").exitCode = 0 := by
  have h := forecast_prints_line ⟨some "k", some "s@x.com", some "pw"⟩
    "London" "T"
    (fun _ => .ok ⟨200, none, ⟨15, "Clear", "clear sky", "London"⟩⟩)
    (fun _ => false) ⟨15, "Clear", "clear sky", "London"⟩ (by decide) rfl
  refine ⟨?_, h.2.1⟩
  rw [h.1]
  decide

/-- Whenever `check_condition` triggers, its message embeds the snapshot's
`name` field (the city name the provider returned). -/
theorem check_condition_message_has_name (w : WeatherSnapshot) (c : String)
    (h : (check_condition w c).1 = true) :
    ∃ a b, (check_condition w c).2 = a ++ w.name ++ b := by
  revert h
  unfold check_condition
  split
  · exact fun _ => ⟨"Hot weather alert in ",
      "! Temperature: " ++ pyFloatRepr w.temp ++ "°C",
      by simp [String.append_assoc]⟩
  · split
    · exact fun _ => ⟨"Cold weather alert in ",
        "! Temperature: " ++ pyFloatRepr w.temp ++ "°C",
        by simp [String.append_assoc]⟩
    · split
      · exact fun _ => ⟨"Rain alert in ", "! Weather: " ++ w.description,
          by simp [String.append_assoc]⟩
      · intro h
        simp at h

/-- Provider oracle answering every query with a snapshot named
`"Metropolis"`; used to exhibit an alert email whose two city names differ. -/
def metropolisHttp : String → HttpResult :=
  fun _ => .ok ⟨200, none, ⟨35, "Clear", "sunny", "Metropolis"⟩⟩

/-- C10: in a triggered alert, the email subject embeds the command-line city
argument, while the alert-message part of the body embeds the city name from
the provider's response (`weather_data['name']`); for some inputs — here CLI
city `"London"` against provider name `"Metropolis"` — the two differ within
one email. -/
theorem alert_city_name_sources (env : Env) (city cond email now : String)
    (http : String → HttpResult) (smtpFails : SmtpStep → Bool)
    (w : WeatherSnapshot)
    (henv : envOk env = true) (hat : '@' ∈ email.data)
    (hw : (get_weather city http).result = Except.ok w)
    (ht : (check_condition w cond).1 = true) :
    (∃ call : EmailCall,
      (runMain (.alert city cond email) env http smtpFails now).notifierCalls
        = [call] ∧
      call.subject = "Weather Alert: " ++ pyTitle cond ++ " in " ++ city ∧
      (∃ a b, call.body = a ++ w.name ++ b)) ∧
    (∃ call : EmailCall,
      (runMain (.alert "London" "hot" "user@example.com")
        ⟨some "k", some "s@x.com", some "pw"⟩ metropolisHttp
        (fun _ => false) "T").notifierCalls = [call] ∧
      (∃ a b, call.subject = a ++ "London" ++ b) ∧
      (∃ a b, call.body = a ++ "Metropolis" ++ b) ∧
      ("Metropolis" : String) ≠ "London") := by
  constructor
  · obtain ⟨a, b, hm⟩ := check_condition_message_has_name w cond ht
    unfold runMain
    simp only [henv, Bool.true_eq_false, if_false, hat, if_true, hw, ht,
      if_pos, ite_true]
    cases hsm : (send_email smtpFails).2 <;>
      simp only [hsm, if_true, if_false, Bool.false_eq_true, ite_true,
        ite_false] <;>
      exact ⟨_, rfl, rfl, a, b ++ ("\n\nCurrent conditions: "
        ++ pyTitle w.description ++ ", Temperature: "
        ++ pyFloatRepr w.temp ++ "°C\nTime: " ++ now ++ "\n\nStay prepared!"),
        by rw [hm]; simp [String.append_assoc]⟩
  · refine ⟨_, rfl, ⟨"Weather Alert: Hot in ", "", by decide⟩,
      ⟨"Hot weather alert in ",
        "! Temperature: 35.0°C\n\nCurrent conditions: Sunny, Temperature: 35.0°C\nTime: T\n\nStay prepared!",
        by decide⟩, by decide⟩

/-- C10 witness: instantiated at the Metropolis provider and CLI city London,
discharging every hypothesis concretely. -/
theorem alert_city_name_sources_witness :
    (∃ call : EmailCall,
      (runMain (.alert "London" "hot" "user@example.com")
        ⟨some "k", some "s@x.com", some "pw"⟩ metropolisHttp
        (fun _ => false) "T").notifierCalls = [call] ∧
      call.subject = "Weather Alert: " ++ pyTitle "hot" ++ " in " ++ "London" ∧
      (∃ a b, call.body = a ++
        (⟨35, "Clear", "sunny", "Metropolis"⟩ : WeatherSnapshot).name ++ b)) ∧
    (∃ call : EmailCall,
      (runMain (.alert "London" "hot" "user@example.com")
        ⟨some "k", some "s@x.com", some "pw"⟩ metropolisHttp
        (fun _ => false) "T").notifierCalls = [call] ∧
      (∃ a b, call.subject = a ++ "London" ++ b) ∧
      (∃ a b, call.body = a ++ "Metropolis" ++ b) ∧
      ("Metropolis" : String) ≠ "London") :=
  alert_city_name_sources ⟨some "k", some "s@x.com", some "pw"⟩
    "London" "hot" "user@example.com" "T" metropolisHttp (fun _ => false)
    ⟨35, "Clear", "sunny", "Metropolis"⟩ (by decide) (by decide) rfl (by decide)

end WeatherCLI
